import Mathlib

/-!
Shallow embedding of pixi.js BufferResource
(src/packages/core/src/textures/resources/BufferResource.js).

The JavaScript class holds a typed-array pixel buffer plus fixed
width/height, lazily memoizes the driver-reported compressed texture
formats, and uploads the buffer to a GL texture, dispatching among four
GL transfer calls by (compressed?, size-match?).  GL driver interaction
is modelled by an explicit log recording extension lookups, parameter
queries, the unpack premultiply-alpha flag and the sequence of transfer
calls issued.
-/

namespace Pixi

/-- Kinds of JavaScript values an external factory may pass to the static
type-detection predicate.  The three typed-array classes accepted by the
source are listed alongside the rejected kinds named by the spec. -/
inductive SourceKind where
  | float32Array
  | uint8Array
  | uint32Array
  | uint8ClampedArray
  | plainArray
  | nullRef
  deriving DecidableEq, Repr

/-- JS instanceof Float32Array. -/
def instanceOfFloat32Array : SourceKind → Bool
  | .float32Array => true
  | _ => false

/-- JS instanceof Uint8Array.  Uint8ClampedArray is a sibling class in JS,
not a subclass of Uint8Array, so it does not match. -/
def instanceOfUint8Array : SourceKind → Bool
  | .uint8Array => true
  | _ => false

/-- JS instanceof Uint32Array. -/
def instanceOfUint32Array : SourceKind → Bool
  | .uint32Array => true
  | _ => false

/-- Static BufferResource.test: source instanceof Float32Array or
Uint8Array or Uint32Array. -/
def test (source : SourceKind) : Bool :=
  instanceOfFloat32Array source || instanceOfUint8Array source
    || instanceOfUint32Array source

/-- The destructured options object: each field may be absent. -/
structure BufferOptions where
  width : Option Int
  height : Option Int
  deriving DecidableEq, Repr

/-- JS truthiness of an optional number: undefined and 0 are falsy, every
other integer is truthy. -/
def truthy : Option Int → Bool
  | none => false
  | some n => n != 0

/-- The options actually read by the constructor: options or else the
empty object (const destructuring of options with a default). -/
def optsOf (options : Option BufferOptions) : BufferOptions :=
  options.getD { width := none, height := none }

/-- State of a BufferResource instance: the data reference (null after
dispose), the fixed dimensions, and the lazily memoized
compressedTextureFormats field (undefined before the first query). -/
structure BufferResource where
  width : Int
  height : Int
  data : Option SourceKind
  compressedTextureFormats : Option (List Int)
  deriving DecidableEq, Repr

/-- The constructor: destructure width/height from options (defaulting to
the empty object), throw when either is falsy, otherwise store the source
reference and the dimensions; the format cache starts unpopulated. -/
def constructBufferResource (source : SourceKind) (options : Option BufferOptions) :
    Except String BufferResource :=
  let opts := optsOf options
  if !truthy opts.width || !truthy opts.height then
    Except.error "BufferResource width or height invalid"
  else
    Except.ok
      { width := opts.width.getD 0
        height := opts.height.getD 0
        data := some source
        compressedTextureFormats := none }

/-- dispose: this.data = null. -/
def dispose (res : BufferResource) : BufferResource :=
  { res with data := none }

/-- The GL rendering context as consulted by this class: the RGBA and RGB
format identifiers, availability of the four compressed-texture
extensions, and the driver value of the COMPRESSED_TEXTURE_FORMATS
parameter. -/
structure GLContext where
  RGBA : Int
  RGB : Int
  extPvrtc : Bool
  extS3tc : Bool
  extEtc1 : Bool
  extAstc : Bool
  driverCompressedFormats : List Int
  deriving DecidableEq, Repr

/-- One GL pixel-transfer call, with the arguments in source order. -/
inductive TransferCall where
  | compressedTexSubImage2D (target level xoffset yoffset width height format : Int)
      (data : Option SourceKind)
  | texSubImage2D (target level xoffset yoffset width height format type : Int)
      (data : Option SourceKind)
  | compressedTexImage2D (target level internalformat width height border : Int)
      (data : Option SourceKind)
  | texImage2D (target level internalformat width height border format type : Int)
      (data : Option SourceKind)
  deriving DecidableEq, Repr

/-- A transfer call is compressed when it is one of the two
compressedTex*Image2D calls. -/
def TransferCall.isCompressedTransfer : TransferCall → Bool
  | .compressedTexSubImage2D .. => true
  | .compressedTexImage2D .. => true
  | _ => false

/-- A transfer call is a sub-image (in-place sub-region) transfer. -/
def TransferCall.isSubImageTransfer : TransferCall → Bool
  | .compressedTexSubImage2D .. => true
  | .texSubImage2D .. => true
  | _ => false

/-- A transfer call is a full-image (allocating) transfer. -/
def TransferCall.isFullImageTransfer : TransferCall → Bool
  | .compressedTexImage2D .. => true
  | .texImage2D .. => true
  | _ => false

/-- Origin (xoffset, yoffset) of a sub-image transfer. -/
def TransferCall.origin : TransferCall → Option (Int × Int)
  | .compressedTexSubImage2D _ _ x y .. => some (x, y)
  | .texSubImage2D _ _ x y .. => some (x, y)
  | _ => none

/-- Width/height extent of any transfer call. -/
def TransferCall.extent : TransferCall → Int × Int
  | .compressedTexSubImage2D _ _ _ _ w h .. => (w, h)
  | .texSubImage2D _ _ _ _ w h .. => (w, h)
  | .compressedTexImage2D _ _ _ w h .. => (w, h)
  | .texImage2D _ _ _ w h .. => (w, h)

/-- Observable driver state: how many getExtension and getParameter calls
were made, the current unpack premultiply-alpha flag, and the transfer
calls issued so far. -/
structure GLLog where
  extensionLookups : Nat
  parameterQueries : Nat
  premultiplyAlpha : Bool
  transfers : List TransferCall
  deriving DecidableEq, Repr

/-- The short-circuit disjunction of the four getExtension lookups:
returns whether any extension is available together with the number of
getExtension calls actually made. -/
def queryCompressedExtensions (gl : GLContext) : Bool × Nat :=
  if gl.extPvrtc then (true, 1)
  else if gl.extS3tc then (true, 2)
  else if gl.extEtc1 then (true, 3)
  else if gl.extAstc then (true, 4)
  else (false, 4)

/-- Result of getCompressedTextureFormats: the returned sequence, the
(possibly memo-updated) resource, and the driver log. -/
structure FormatsResult where
  formats : List Int
  res : BufferResource
  log : GLLog
  deriving DecidableEq, Repr

/-- getCompressedTextureFormats: on first call set the memo field to an
empty array, look up the four extensions, and when any is present query
COMPRESSED_TEXTURE_FORMATS and push every entry; later calls find the
(truthy, possibly empty) array and return it without touching the
driver. -/
def getCompressedTextureFormats (res : BufferResource) (gl : GLContext)
    (log : GLLog) : FormatsResult :=
  match res.compressedTextureFormats with
  | some cached => { formats := cached, res := res, log := log }
  | none =>
      let lookup := queryCompressedExtensions gl
      let log1 : GLLog := { log with extensionLookups := log.extensionLookups + lookup.2 }
      if lookup.1 then
        let fmts := gl.driverCompressedFormats
        { formats := fmts
          res := { res with compressedTextureFormats := some fmts }
          log := { log1 with parameterQueries := log1.parameterQueries + 1 } }
      else
        { formats := []
          res := { res with compressedTextureFormats := some [] }
          log := log1 }

/-- JS Array.indexOf starting at position i. -/
def jsIndexOfFrom : List Int → Int → Int → Int
  | [], _, _ => -1
  | a :: rest, x, i => if a = x then i else jsIndexOfFrom rest x (i + 1)

/-- JS Array.indexOf. -/
def jsIndexOf (l : List Int) (x : Int) : Int :=
  jsIndexOfFrom l x 0

/-- Result of the isCompressed classification: the flag, the resource
(whose format cache the classification may populate) and the log. -/
structure ClassifyResult where
  isCompressed : Bool
  res : BufferResource
  log : GLLog
  deriving DecidableEq, Repr

/-- The isCompressed expression of upload: format is neither gl.RGBA nor
gl.RGB, and (short-circuit: only then is the cache consulted) indexOf in
the compressed-format list is greater than -1. -/
def classifyCompressed (res : BufferResource) (gl : GLContext) (format : Int)
    (log : GLLog) : ClassifyResult :=
  if format ≠ gl.RGBA ∧ format ≠ gl.RGB then
    let q := getCompressedTextureFormats res gl log
    { isCompressed := decide (jsIndexOf q.formats format > -1)
      res := q.res
      log := q.log }
  else
    { isCompressed := false, res := res, log := log }

/-- The texture metadata read by upload (PIXI.BaseTexture fields). -/
structure BaseTexture where
  format : Int
  type : Int
  target : Int
  width : Int
  height : Int
  premultiplyAlpha : Bool
  deriving DecidableEq, Repr

/-- The GPU-side texture handle (PIXI.GLTexture fields used here). -/
structure GLTexture where
  width : Int
  height : Int
  internalFormat : Int
  type : Int
  deriving DecidableEq, Repr

/-- Result of upload: the returned boolean, the resource, the (possibly
resized) GL texture handle, and the driver log. -/
structure UploadResult where
  success : Bool
  res : BufferResource
  glTexture : GLTexture
  log : GLLog
  deriving DecidableEq, Repr

/-- upload: classify the format, set the premultiply-alpha unpack flag,
then dispatch on whether the GL texture dimensions already match the
texture metadata: matching dimensions issue a (compressed or standard)
sub-image transfer at origin (0,0); otherwise record the new dimensions
on the handle and issue a (compressed or standard) full-image transfer.
Always returns true. -/
def upload (res : BufferResource) (gl : GLContext) (baseTexture : BaseTexture)
    (glTexture : GLTexture) (log : GLLog) : UploadResult :=
  let internalFormat := baseTexture.format
  let c := classifyCompressed res gl internalFormat log
  let log1 : GLLog := { c.log with premultiplyAlpha := baseTexture.premultiplyAlpha }
  if glTexture.width = baseTexture.width ∧ glTexture.height = baseTexture.height then
    if c.isCompressed then
      { success := true, res := c.res, glTexture := glTexture
        log := { log1 with transfers := log1.transfers ++
          [TransferCall.compressedTexSubImage2D baseTexture.target 0 0 0
            baseTexture.width baseTexture.height internalFormat c.res.data] } }
    else
      { success := true, res := c.res, glTexture := glTexture
        log := { log1 with transfers := log1.transfers ++
          [TransferCall.texSubImage2D baseTexture.target 0 0 0
            baseTexture.width baseTexture.height internalFormat baseTexture.type
            c.res.data] } }
  else
    let glTexture1 : GLTexture :=
      { glTexture with width := baseTexture.width, height := baseTexture.height }
    if c.isCompressed then
      { success := true, res := c.res, glTexture := glTexture1
        log := { log1 with transfers := log1.transfers ++
          [TransferCall.compressedTexImage2D baseTexture.target 0 internalFormat
            baseTexture.width baseTexture.height 0 c.res.data] } }
    else
      { success := true, res := c.res, glTexture := glTexture1
        log := { log1 with transfers := log1.transfers ++
          [TransferCall.texImage2D baseTexture.target 0 glTexture1.internalFormat
            baseTexture.width baseTexture.height 0 internalFormat glTexture1.type
            c.res.data] } }

/-! Helper lemmas. -/

/-- indexOf from a nonnegative start is greater than -1 exactly when the
element occurs in the list. -/
theorem jsIndexOfFrom_pos_iff_mem (l : List Int) (x : Int) :
    ∀ i : Int, 0 ≤ i → (jsIndexOfFrom l x i > -1 ↔ x ∈ l) := by
  induction l with
  | nil =>
      intro i _
      simp [jsIndexOfFrom]
  | cons a rest ih =>
      intro i hi
      simp only [jsIndexOfFrom, List.mem_cons]
      by_cases hax : a = x
      · rw [if_pos hax]
        constructor
        · intro _; exact Or.inl hax.symm
        · intro _; omega
      · rw [if_neg hax, ih (i + 1) (by omega)]
        constructor
        · intro h; exact Or.inr h
        · rintro (h | h)
          · exact absurd h.symm hax
          · exact h

/-- indexOf is greater than -1 exactly when the element occurs. -/
theorem jsIndexOf_pos_iff_mem (l : List Int) (x : Int) :
    jsIndexOf l x > -1 ↔ x ∈ l :=
  jsIndexOfFrom_pos_iff_mem l x 0 le_rfl

/-- The formats query never changes the data reference. -/
theorem getCompressedTextureFormats_data (res : BufferResource) (gl : GLContext)
    (log : GLLog) : (getCompressedTextureFormats res gl log).res.data = res.data := by
  unfold getCompressedTextureFormats
  split
  · rfl
  · by_cases h : (queryCompressedExtensions gl).1 <;> simp [h]

/-- The formats query never changes the dimensions. -/
theorem getCompressedTextureFormats_dims (res : BufferResource) (gl : GLContext)
    (log : GLLog) :
    (getCompressedTextureFormats res gl log).res.width = res.width ∧
      (getCompressedTextureFormats res gl log).res.height = res.height := by
  unfold getCompressedTextureFormats
  split
  · exact ⟨rfl, rfl⟩
  · by_cases h : (queryCompressedExtensions gl).1 <;> simp [h]

/-- After the formats query, the memo field holds exactly the returned
sequence. -/
theorem getCompressedTextureFormats_memo (res : BufferResource) (gl : GLContext)
    (log : GLLog) :
    (getCompressedTextureFormats res gl log).res.compressedTextureFormats =
      some (getCompressedTextureFormats res gl log).formats := by
  rcases hc : res.compressedTextureFormats with _ | cached <;>
    unfold getCompressedTextureFormats <;> rw [hc]
  · by_cases h : (queryCompressedExtensions gl).1 <;> simp [h]
  · exact hc

/-- The classification never changes the data reference. -/
theorem classifyCompressed_data (res : BufferResource) (gl : GLContext)
    (format : Int) (log : GLLog) :
    (classifyCompressed res gl format log).res.data = res.data := by
  unfold classifyCompressed
  split
  · exact getCompressedTextureFormats_data res gl log
  · rfl

/-- The classification never changes the dimensions. -/
theorem classifyCompressed_dims (res : BufferResource) (gl : GLContext)
    (format : Int) (log : GLLog) :
    (classifyCompressed res gl format log).res.width = res.width ∧
      (classifyCompressed res gl format log).res.height = res.height := by
  unfold classifyCompressed
  split
  · exact getCompressedTextureFormats_dims res gl log
  · exact ⟨rfl, rfl⟩

/-- The classification flag is true exactly when the format is neither
RGBA nor RGB and occurs in the sequence the Format Capability Cache
returns for this resource and context. -/
theorem classifyCompressed_iff (res : BufferResource) (gl : GLContext)
    (format : Int) (log : GLLog) :
    (classifyCompressed res gl format log).isCompressed = true ↔
      (format ≠ gl.RGBA ∧ format ≠ gl.RGB ∧
        format ∈ (getCompressedTextureFormats res gl log).formats) := by
  unfold classifyCompressed
  split
  · rename_i h
    simp only [decide_eq_true_eq, jsIndexOf_pos_iff_mem]
    exact ⟨fun hm => ⟨h.1, h.2, hm⟩, fun hm => hm.2.2⟩
  · rename_i h
    simp only [Bool.false_eq_true, false_iff]
    intro hm
    exact h ⟨hm.1, hm.2.1⟩

/-- When the format equals RGBA or RGB the classification short-circuits:
flag false, resource and log untouched. -/
theorem classifyCompressed_shortcircuit (res : BufferResource) (gl : GLContext)
    (format : Int) (log : GLLog)
    (h : format = gl.RGBA ∨ format = gl.RGB) :
    classifyCompressed res gl format log =
      { isCompressed := false, res := res, log := log } := by
  unfold classifyCompressed
  rw [if_neg]
  rintro ⟨h1, h2⟩
  rcases h with h | h
  · exact h1 h
  · exact h2 h

/-- Without any compressed-texture extension and with the cache
unpopulated, the formats query returns the empty sequence. -/
theorem getCompressedTextureFormats_empty (res : BufferResource) (gl : GLContext)
    (log : GLLog) (h1 : gl.extPvrtc = false) (h2 : gl.extS3tc = false)
    (h3 : gl.extEtc1 = false) (h4 : gl.extAstc = false)
    (hc : res.compressedTextureFormats = none) :
    (getCompressedTextureFormats res gl log).formats = [] := by
  unfold getCompressedTextureFormats queryCompressedExtensions
  rw [hc]
  simp [h1, h2, h3, h4]

/-- The formats query issues no transfer call. -/
theorem getCompressedTextureFormats_log_transfers (res : BufferResource)
    (gl : GLContext) (log : GLLog) :
    (getCompressedTextureFormats res gl log).log.transfers = log.transfers := by
  unfold getCompressedTextureFormats
  split
  · rfl
  · by_cases h : (queryCompressedExtensions gl).1 <;> simp [h]

/-- The classification issues no transfer call. -/
theorem classifyCompressed_log_transfers (res : BufferResource) (gl : GLContext)
    (format : Int) (log : GLLog) :
    (classifyCompressed res gl format log).log.transfers = log.transfers := by
  unfold classifyCompressed
  split
  · exact getCompressedTextureFormats_log_transfers res gl log
  · rfl

/-- upload always returns true. -/
theorem upload_success (res : BufferResource) (gl : GLContext) (btx : BaseTexture)
    (gtx : GLTexture) (log : GLLog) :
    (upload res gl btx gtx log).success = true := by
  simp only [upload]
  split <;> split <;> rfl

/-- upload hands back exactly the resource state left by the
classification step. -/
theorem upload_res_eq (res : BufferResource) (gl : GLContext) (btx : BaseTexture)
    (gtx : GLTexture) (log : GLLog) :
    (upload res gl btx gtx log).res = (classifyCompressed res gl btx.format log).res := by
  simp only [upload]
  split <;> split <;> rfl

/-- upload changes no driver query counter beyond those of the
classification step. -/
theorem upload_counters (res : BufferResource) (gl : GLContext) (btx : BaseTexture)
    (gtx : GLTexture) (log : GLLog) :
    (upload res gl btx gtx log).log.extensionLookups =
        (classifyCompressed res gl btx.format log).log.extensionLookups ∧
      (upload res gl btx gtx log).log.parameterQueries =
        (classifyCompressed res gl btx.format log).log.parameterQueries := by
  simp only [upload]
  split <;> split <;> exact ⟨rfl, rfl⟩

/-- When the handle dimensions match the metadata, upload keeps the handle
untouched. -/
theorem upload_glTexture_match (res : BufferResource) (gl : GLContext)
    (btx : BaseTexture) (gtx : GLTexture) (log : GLLog)
    (hd : gtx.width = btx.width ∧ gtx.height = btx.height) :
    (upload res gl btx gtx log).glTexture = gtx := by
  simp only [upload]
  rw [if_pos hd]
  by_cases hcp : (classifyCompressed res gl btx.format log).isCompressed = true
  · rw [if_pos hcp]
  · rw [if_neg hcp]

/-- When the dimensions differ, upload records the metadata dimensions on
the handle. -/
theorem upload_glTexture_mismatch (res : BufferResource) (gl : GLContext)
    (btx : BaseTexture) (gtx : GLTexture) (log : GLLog)
    (hd : ¬(gtx.width = btx.width ∧ gtx.height = btx.height)) :
    (upload res gl btx gtx log).glTexture =
      { gtx with width := btx.width, height := btx.height } := by
  simp only [upload]
  rw [if_neg hd]
  by_cases hcp : (classifyCompressed res gl btx.format log).isCompressed = true
  · rw [if_pos hcp]
  · rw [if_neg hcp]

/-- Matching dimensions: upload appends exactly one transfer, a sub-image
transfer at origin (0,0) with the metadata extent, compressed exactly when
the classification flag is set. -/
theorem upload_subimage_spec (res : BufferResource) (gl : GLContext)
    (btx : BaseTexture) (gtx : GLTexture) (log : GLLog)
    (hd : gtx.width = btx.width ∧ gtx.height = btx.height) :
    ∃ c : TransferCall,
      (upload res gl btx gtx log).log.transfers = log.transfers ++ [c] ∧
      c.isCompressedTransfer = (classifyCompressed res gl btx.format log).isCompressed ∧
      c.isSubImageTransfer = true ∧ c.isFullImageTransfer = false ∧
      c.origin = some (0, 0) ∧ c.extent = (btx.width, btx.height) := by
  simp only [upload]
  rw [if_pos hd]
  by_cases hcp : (classifyCompressed res gl btx.format log).isCompressed = true
  · rw [if_pos hcp]
    refine ⟨TransferCall.compressedTexSubImage2D btx.target 0 0 0 btx.width btx.height
        btx.format (classifyCompressed res gl btx.format log).res.data,
      ?_, ?_, rfl, rfl, rfl, rfl⟩
    · simp [classifyCompressed_log_transfers]
    · simp [TransferCall.isCompressedTransfer, hcp]
  · rw [if_neg hcp]
    refine ⟨TransferCall.texSubImage2D btx.target 0 0 0 btx.width btx.height
        btx.format btx.type (classifyCompressed res gl btx.format log).res.data,
      ?_, ?_, rfl, rfl, rfl, rfl⟩
    · simp [classifyCompressed_log_transfers]
    · cases hb : (classifyCompressed res gl btx.format log).isCompressed
      · rfl
      · exact absurd hb hcp

/-- Mismatched dimensions: upload appends exactly one transfer, a
full-image transfer with the metadata extent, compressed exactly when the
classification flag is set. -/
theorem upload_fullimage_spec (res : BufferResource) (gl : GLContext)
    (btx : BaseTexture) (gtx : GLTexture) (log : GLLog)
    (hd : ¬(gtx.width = btx.width ∧ gtx.height = btx.height)) :
    ∃ c : TransferCall,
      (upload res gl btx gtx log).log.transfers = log.transfers ++ [c] ∧
      c.isCompressedTransfer = (classifyCompressed res gl btx.format log).isCompressed ∧
      c.isFullImageTransfer = true ∧ c.isSubImageTransfer = false ∧
      c.extent = (btx.width, btx.height) := by
  simp only [upload]
  rw [if_neg hd]
  by_cases hcp : (classifyCompressed res gl btx.format log).isCompressed = true
  · rw [if_pos hcp]
    refine ⟨TransferCall.compressedTexImage2D btx.target 0 btx.format btx.width
        btx.height 0 (classifyCompressed res gl btx.format log).res.data,
      ?_, ?_, rfl, rfl, rfl⟩
    · simp [classifyCompressed_log_transfers]
    · simp [TransferCall.isCompressedTransfer, hcp]
  · rw [if_neg hcp]
    refine ⟨TransferCall.texImage2D btx.target 0
        ({ gtx with width := btx.width, height := btx.height } : GLTexture).internalFormat
        btx.width btx.height 0 btx.format
        ({ gtx with width := btx.width, height := btx.height } : GLTexture).type
        (classifyCompressed res gl btx.format log).res.data,
      ?_, ?_, rfl, rfl, rfl⟩
    · simp [classifyCompressed_log_transfers]
    · cases hb : (classifyCompressed res gl btx.format log).isCompressed
      · rfl
      · exact absurd hb hcp

/-- The uncompressed full-allocation branch issues exactly the standard
full-image call of the source, with the handle's internalFormat and type,
the metadata format and extent, zero border, mip level 0, and the
resource's data buffer. -/
theorem upload_uncompressed_full (res : BufferResource) (gl : GLContext)
    (btx : BaseTexture) (gtx : GLTexture) (log : GLLog)
    (hd : ¬(gtx.width = btx.width ∧ gtx.height = btx.height))
    (hcp : (classifyCompressed res gl btx.format log).isCompressed = false) :
    (upload res gl btx gtx log).log.transfers = log.transfers ++
      [TransferCall.texImage2D btx.target 0 gtx.internalFormat btx.width btx.height 0
        btx.format gtx.type res.data] := by
  simp only [upload]
  rw [if_neg hd, if_neg (by simp [hcp])]
  simp [classifyCompressed_log_transfers, classifyCompressed_data]

/-! Concrete sample inputs used by the witnesses. -/

/-- A freshly constructed 4 by 4 float resource. -/
def sampleRes : BufferResource :=
  { width := 4, height := 4, data := some SourceKind.float32Array
    compressedTextureFormats := none }

/-- A context without any compressed-texture extension. -/
def sampleGL : GLContext :=
  { RGBA := 6408, RGB := 6407, extPvrtc := false, extS3tc := false
    extEtc1 := false, extAstc := false, driverCompressedFormats := [] }

/-- A context with the s3tc extension and two driver formats. -/
def sampleGLExt : GLContext :=
  { RGBA := 6408, RGB := 6407, extPvrtc := false, extS3tc := true
    extEtc1 := false, extAstc := false
    driverCompressedFormats := [33776, 33777] }

/-- Metadata for a 4 by 4 RGBA texture. -/
def sampleBaseTexture : BaseTexture :=
  { format := 6408, type := 5121, target := 3553, width := 4, height := 4
    premultiplyAlpha := true }

/-- A GL texture handle already sized 4 by 4. -/
def sampleGLTexture : GLTexture :=
  { width := 4, height := 4, internalFormat := 6408, type := 5121 }

/-- A GL texture handle still sized 0 by 0. -/
def sampleGLTexture0 : GLTexture :=
  { width := 0, height := 0, internalFormat := 6408, type := 5121 }

/-- An empty driver log. -/
def emptyLog : GLLog :=
  { extensionLookups := 0, parameterQueries := 0, premultiplyAlpha := false
    transfers := [] }

/-- A query on a resource whose cache field is already populated returns
the cached sequence and touches nothing. -/
theorem getCompressedTextureFormats_cached (res : BufferResource) (gl : GLContext)
    (log : GLLog) (fmts : List Int) (h : res.compressedTextureFormats = some fmts) :
    getCompressedTextureFormats res gl log =
      { formats := fmts, res := res, log := log } := by
  unfold getCompressedTextureFormats
  rw [h]

/-! Claim theorems. -/

/-- C1: every upload issues exactly one transfer, and that transfer is
compressed iff textureMeta.format is neither the RGBA nor the RGB
identifier and appears in the Format Capability Cache result for the
context; moreover with no compressed-texture extension and an unpopulated
cache the result is the empty sequence and the transfer is uncompressed
for every format. -/
theorem C1_upload_classification :
    (∀ (res : BufferResource) (gl : GLContext) (btx : BaseTexture)
        (gtx : GLTexture) (log : GLLog), ∃ c : TransferCall,
      (upload res gl btx gtx log).log.transfers = log.transfers ++ [c] ∧
      (c.isCompressedTransfer = true ↔
        btx.format ≠ gl.RGBA ∧ btx.format ≠ gl.RGB ∧
          btx.format ∈ (getCompressedTextureFormats res gl log).formats)) ∧
    (∀ (res : BufferResource) (gl : GLContext) (btx : BaseTexture)
        (gtx : GLTexture) (log : GLLog),
      gl.extPvrtc = false → gl.extS3tc = false → gl.extEtc1 = false →
      gl.extAstc = false → res.compressedTextureFormats = none →
      (getCompressedTextureFormats res gl log).formats = [] ∧
      ∃ c : TransferCall,
        (upload res gl btx gtx log).log.transfers = log.transfers ++ [c] ∧
        c.isCompressedTransfer = false) := by
  constructor
  · intro res gl btx gtx log
    by_cases hd : gtx.width = btx.width ∧ gtx.height = btx.height
    · obtain ⟨c, h1, h2, _⟩ := upload_subimage_spec res gl btx gtx log hd
      exact ⟨c, h1, by rw [h2, classifyCompressed_iff]⟩
    · obtain ⟨c, h1, h2, _⟩ := upload_fullimage_spec res gl btx gtx log hd
      exact ⟨c, h1, by rw [h2, classifyCompressed_iff]⟩
  · intro res gl btx gtx log h1 h2 h3 h4 hc
    have hemp := getCompressedTextureFormats_empty res gl log h1 h2 h3 h4 hc
    refine ⟨hemp, ?_⟩
    have hflag : (classifyCompressed res gl btx.format log).isCompressed = false := by
      cases hb : (classifyCompressed res gl btx.format log).isCompressed
      · rfl
      · exfalso
        have hmem := (classifyCompressed_iff res gl btx.format log).mp hb
        rw [hemp] at hmem
        exact absurd hmem.2.2 (List.not_mem_nil _)
    by_cases hd : gtx.width = btx.width ∧ gtx.height = btx.height
    · obtain ⟨c, ht, hcc, _⟩ := upload_subimage_spec res gl btx gtx log hd
      exact ⟨c, ht, by rw [hcc, hflag]⟩
    · obtain ⟨c, ht, hcc, _⟩ := upload_fullimage_spec res gl btx gtx log hd
      exact ⟨c, ht, by rw [hcc, hflag]⟩

/-- Witness for C1 at a concrete extension-free context. -/
theorem C1_upload_classification_witness :
    (sampleGL.extPvrtc = false ∧ sampleGL.extS3tc = false ∧
      sampleGL.extEtc1 = false ∧ sampleGL.extAstc = false ∧
      sampleRes.compressedTextureFormats = none) ∧
    ((getCompressedTextureFormats sampleRes sampleGL emptyLog).formats = [] ∧
      ∃ c : TransferCall,
        (upload sampleRes sampleGL sampleBaseTexture sampleGLTexture
            emptyLog).log.transfers = emptyLog.transfers ++ [c] ∧
        c.isCompressedTransfer = false) :=
  ⟨⟨rfl, rfl, rfl, rfl, rfl⟩,
    C1_upload_classification.2 sampleRes sampleGL sampleBaseTexture sampleGLTexture
      emptyLog rfl rfl rfl rfl rfl⟩

/-- C2: with matching dimensions upload leaves the handle untouched and
issues exactly one sub-image transfer at origin (0,0) with the full
metadata extent, and no full-image transfer. -/
theorem C2_subimage_on_match (res : BufferResource) (gl : GLContext)
    (btx : BaseTexture) (gtx : GLTexture) (log : GLLog)
    (hw : gtx.width = btx.width) (hh : gtx.height = btx.height) :
    (upload res gl btx gtx log).glTexture = gtx ∧
    ∃ c : TransferCall,
      (upload res gl btx gtx log).log.transfers = log.transfers ++ [c] ∧
      c.isSubImageTransfer = true ∧ c.isFullImageTransfer = false ∧
      c.origin = some (0, 0) ∧ c.extent = (btx.width, btx.height) := by
  refine ⟨upload_glTexture_match res gl btx gtx log ⟨hw, hh⟩, ?_⟩
  obtain ⟨c, h1, _, h3, h4, h5, h6⟩ := upload_subimage_spec res gl btx gtx log ⟨hw, hh⟩
  exact ⟨c, h1, h3, h4, h5, h6⟩

/-- Witness for C2 at a concrete matching 4 by 4 handle. -/
theorem C2_subimage_on_match_witness :
    (sampleGLTexture.width = sampleBaseTexture.width ∧
      sampleGLTexture.height = sampleBaseTexture.height) ∧
    ((upload sampleRes sampleGL sampleBaseTexture sampleGLTexture emptyLog).glTexture
        = sampleGLTexture ∧
      ∃ c : TransferCall,
        (upload sampleRes sampleGL sampleBaseTexture sampleGLTexture
            emptyLog).log.transfers = emptyLog.transfers ++ [c] ∧
        c.isSubImageTransfer = true ∧ c.isFullImageTransfer = false ∧
        c.origin = some (0, 0) ∧
        c.extent = (sampleBaseTexture.width, sampleBaseTexture.height)) :=
  ⟨⟨rfl, rfl⟩, C2_subimage_on_match sampleRes sampleGL sampleBaseTexture
    sampleGLTexture emptyLog rfl rfl⟩

/-- C3: with mismatched dimensions upload issues exactly one full-image
transfer and no sub-image transfer, records the metadata dimensions on the
handle, and returns true. -/
theorem C3_fullimage_on_mismatch (res : BufferResource) (gl : GLContext)
    (btx : BaseTexture) (gtx : GLTexture) (log : GLLog)
    (hd : gtx.width ≠ btx.width ∨ gtx.height ≠ btx.height) :
    (upload res gl btx gtx log).success = true ∧
    (upload res gl btx gtx log).glTexture.width = btx.width ∧
    (upload res gl btx gtx log).glTexture.height = btx.height ∧
    ∃ c : TransferCall,
      (upload res gl btx gtx log).log.transfers = log.transfers ++ [c] ∧
      c.isFullImageTransfer = true ∧ c.isSubImageTransfer = false := by
  have hd' : ¬(gtx.width = btx.width ∧ gtx.height = btx.height) := by
    rintro ⟨h1, h2⟩
    rcases hd with h | h
    · exact h h1
    · exact h h2
  refine ⟨upload_success res gl btx gtx log, ?_, ?_, ?_⟩
  · rw [upload_glTexture_mismatch res gl btx gtx log hd']
  · rw [upload_glTexture_mismatch res gl btx gtx log hd']
  · obtain ⟨c, h1, _, h3, h4, _⟩ := upload_fullimage_spec res gl btx gtx log hd'
    exact ⟨c, h1, h3, h4⟩

/-- Witness for C3 at a concrete 0 by 0 handle and 4 by 4 metadata. -/
theorem C3_fullimage_on_mismatch_witness :
    (sampleGLTexture0.width ≠ sampleBaseTexture.width ∨
      sampleGLTexture0.height ≠ sampleBaseTexture.height) ∧
    ((upload sampleRes sampleGL sampleBaseTexture sampleGLTexture0 emptyLog).success
        = true ∧
      (upload sampleRes sampleGL sampleBaseTexture sampleGLTexture0
          emptyLog).glTexture.width = sampleBaseTexture.width ∧
      (upload sampleRes sampleGL sampleBaseTexture sampleGLTexture0
          emptyLog).glTexture.height = sampleBaseTexture.height ∧
      ∃ c : TransferCall,
        (upload sampleRes sampleGL sampleBaseTexture sampleGLTexture0
            emptyLog).log.transfers = emptyLog.transfers ++ [c] ∧
        c.isFullImageTransfer = true ∧ c.isSubImageTransfer = false) :=
  ⟨Or.inl (by decide), C3_fullimage_on_mismatch sampleRes sampleGL sampleBaseTexture
    sampleGLTexture0 emptyLog (Or.inl (by decide))⟩

/-- C4: construction succeeds and reports exactly the given dimensions
when both width and height are truthy, and fails with the configuration
error, producing no resource, exactly otherwise. -/
theorem C4_construction (source : SourceKind) (options : Option BufferOptions) :
    (truthy (optsOf options).width = true ∧ truthy (optsOf options).height = true →
      ∃ r : BufferResource, constructBufferResource source options = Except.ok r ∧
        (optsOf options).width = some r.width ∧
        (optsOf options).height = some r.height) ∧
    (¬(truthy (optsOf options).width = true ∧ truthy (optsOf options).height = true) →
      constructBufferResource source options =
        Except.error "BufferResource width or height invalid") := by
  constructor
  · rintro ⟨hw, hh⟩
    refine ⟨{ width := (optsOf options).width.getD 0
              height := (optsOf options).height.getD 0
              data := some source, compressedTextureFormats := none }, ?_, ?_, ?_⟩
    · simp only [constructBufferResource]
      rw [if_neg (by simp [hw, hh])]
    · rcases hwv : (optsOf options).width with _ | w
      · rw [hwv] at hw
        simp [truthy] at hw
      · rfl
    · rcases hhv : (optsOf options).height with _ | h
      · rw [hhv] at hh
        simp [truthy] at hh
      · rfl
  · intro h
    simp only [constructBufferResource]
    rw [if_pos ?_]
    cases htw : truthy (optsOf options).width <;>
      cases hth : truthy (optsOf options).height <;> simp_all

/-- Witness for C4 at concrete 4 by 4 options. -/
theorem C4_construction_witness :
    (truthy (optsOf (some { width := some 4, height := some 4 })).width = true ∧
      truthy (optsOf (some { width := some 4, height := some 4 })).height = true) ∧
    ∃ r : BufferResource,
      constructBufferResource SourceKind.float32Array
          (some { width := some 4, height := some 4 }) = Except.ok r ∧
      (optsOf (some { width := some 4, height := some 4 })).width = some r.width ∧
      (optsOf (some { width := some 4, height := some 4 })).height = some r.height :=
  ⟨⟨by decide, by decide⟩,
    (C4_construction SourceKind.float32Array
      (some { width := some 4, height := some 4 })).1 ⟨by decide, by decide⟩⟩

/-- C5 as stated is false on the code: -1 is truthy, so construction with
width -1 succeeds and yields a live resource whose width is not
positive. -/
theorem C5_counterexample :
    ∃ r : BufferResource,
      constructBufferResource SourceKind.uint8Array
          (some { width := some (-1), height := some 1 }) = Except.ok r ∧
      ¬(r.width > 0) := by
  refine ⟨{ width := -1, height := 1, data := some SourceKind.uint8Array,
            compressedTextureFormats := none }, ?_, by decide⟩
  rfl

/-- C5 amended: every successfully constructed resource has nonzero width
and height (the validation only rules out falsy values, not negative
ones), and no operation (upload, the compressed-formats query, dispose)
changes a resource's width or height. -/
theorem C5_amended_nonzero_immutable :
    (∀ (source : SourceKind) (options : Option BufferOptions) (r : BufferResource),
      constructBufferResource source options = Except.ok r →
        r.width ≠ 0 ∧ r.height ≠ 0) ∧
    (∀ (res : BufferResource) (gl : GLContext) (btx : BaseTexture)
        (gtx : GLTexture) (log : GLLog),
      (upload res gl btx gtx log).res.width = res.width ∧
        (upload res gl btx gtx log).res.height = res.height) ∧
    (∀ (res : BufferResource) (gl : GLContext) (log : GLLog),
      (getCompressedTextureFormats res gl log).res.width = res.width ∧
        (getCompressedTextureFormats res gl log).res.height = res.height) ∧
    (∀ res : BufferResource, (dispose res).width = res.width ∧
        (dispose res).height = res.height) := by
  refine ⟨?_, ?_, getCompressedTextureFormats_dims, fun res => ⟨rfl, rfl⟩⟩
  · intro source options r h
    simp only [constructBufferResource] at h
    split at h
    · exact Except.noConfusion h
    · rename_i hcond
      obtain ⟨hw, hh⟩ : truthy (optsOf options).width = true ∧
          truthy (optsOf options).height = true := by
        cases htw : truthy (optsOf options).width <;>
          cases hth : truthy (optsOf options).height <;> simp_all
      injection h with h'
      constructor
      · rw [← h']
        show (optsOf options).width.getD 0 ≠ 0
        rcases hwv : (optsOf options).width with _ | w
        · rw [hwv] at hw
          simp [truthy] at hw
        · rw [hwv] at hw
          simpa [truthy] using hw
      · rw [← h']
        show (optsOf options).height.getD 0 ≠ 0
        rcases hhv : (optsOf options).height with _ | v
        · rw [hhv] at hh
          simp [truthy] at hh
        · rw [hhv] at hh
          simpa [truthy] using hh
  · intro res gl btx gtx log
    rw [upload_res_eq]
    exact classifyCompressed_dims res gl btx.format log

/-- Witness for C5 amended at a concrete successful construction. -/
theorem C5_amended_witness :
    constructBufferResource SourceKind.uint8Array
        (some { width := some 4, height := some 4 }) = Except.ok
          { width := 4, height := 4, data := some SourceKind.uint8Array,
            compressedTextureFormats := none } ∧
    (({ width := 4, height := 4, data := some SourceKind.uint8Array,
          compressedTextureFormats := none } : BufferResource).width ≠ 0 ∧
      ({ width := 4, height := 4, data := some SourceKind.uint8Array,
          compressedTextureFormats := none } : BufferResource).height ≠ 0) :=
  ⟨rfl, C5_amended_nonzero_immutable.1 SourceKind.uint8Array
    (some { width := some 4, height := some 4 })
    { width := 4, height := 4, data := some SourceKind.uint8Array,
      compressedTextureFormats := none } rfl⟩

/-- C6: the formats query is idempotent and memoized per resource: the
second call returns the identical sequence and resource state and performs
no further extension lookup and no further parameter query, including when
the first call produced an empty sequence. -/
theorem C6_formats_memoized (res : BufferResource) (gl : GLContext) (log : GLLog) :
    (getCompressedTextureFormats (getCompressedTextureFormats res gl log).res gl
        (getCompressedTextureFormats res gl log).log).formats
      = (getCompressedTextureFormats res gl log).formats ∧
    (getCompressedTextureFormats (getCompressedTextureFormats res gl log).res gl
        (getCompressedTextureFormats res gl log).log).res
      = (getCompressedTextureFormats res gl log).res ∧
    (getCompressedTextureFormats (getCompressedTextureFormats res gl log).res gl
        (getCompressedTextureFormats res gl log).log).log.extensionLookups
      = (getCompressedTextureFormats res gl log).log.extensionLookups ∧
    (getCompressedTextureFormats (getCompressedTextureFormats res gl log).res gl
        (getCompressedTextureFormats res gl log).log).log.parameterQueries
      = (getCompressedTextureFormats res gl log).log.parameterQueries := by
  rw [getCompressedTextureFormats_cached (getCompressedTextureFormats res gl log).res
    gl (getCompressedTextureFormats res gl log).log
    (getCompressedTextureFormats res gl log).formats
    (getCompressedTextureFormats_memo res gl log)]
  exact ⟨rfl, rfl, rfl, rfl⟩

/-- C7: the uncompressed full-allocation path issues the standard
full-image transfer with the handle's internalFormat as internal storage
format, the metadata format as data format, the handle's type as element
type, zero border, mip level 0, the metadata extent, and the resource's
data buffer as pixel source. -/
theorem C7_uncompressed_full_call (res : BufferResource) (gl : GLContext)
    (btx : BaseTexture) (gtx : GLTexture) (log : GLLog)
    (hd : ¬(gtx.width = btx.width ∧ gtx.height = btx.height))
    (hcp : (classifyCompressed res gl btx.format log).isCompressed = false) :
    (upload res gl btx gtx log).log.transfers = log.transfers ++
      [TransferCall.texImage2D btx.target 0 gtx.internalFormat btx.width btx.height 0
        btx.format gtx.type res.data] :=
  upload_uncompressed_full res gl btx gtx log hd hcp

/-- Witness for C7 at a concrete RGBA upload onto a 0 by 0 handle. -/
theorem C7_uncompressed_full_call_witness :
    (¬(sampleGLTexture0.width = sampleBaseTexture.width ∧
        sampleGLTexture0.height = sampleBaseTexture.height) ∧
      (classifyCompressed sampleRes sampleGL sampleBaseTexture.format
          emptyLog).isCompressed = false) ∧
    (upload sampleRes sampleGL sampleBaseTexture sampleGLTexture0 emptyLog).log.transfers
      = emptyLog.transfers ++
        [TransferCall.texImage2D sampleBaseTexture.target 0
          sampleGLTexture0.internalFormat sampleBaseTexture.width
          sampleBaseTexture.height 0 sampleBaseTexture.format sampleGLTexture0.type
          sampleRes.data] :=
  ⟨⟨by decide, by decide⟩,
    C7_uncompressed_full_call sampleRes sampleGL sampleBaseTexture sampleGLTexture0
      emptyLog (by decide) (by decide)⟩

/-- C8: the type-detection predicate accepts exactly the three supported
buffer kinds and rejects every other input, including a plain sequence, a
null reference and the 8-bit clamped variant. -/
theorem C8_test_predicate :
    (∀ s : SourceKind, test s = true ↔
      (s = SourceKind.float32Array ∨ s = SourceKind.uint8Array ∨
        s = SourceKind.uint32Array)) ∧
    test SourceKind.plainArray = false ∧ test SourceKind.nullRef = false ∧
    test SourceKind.uint8ClampedArray = false := by
  refine ⟨fun s => ?_, rfl, rfl, rfl⟩
  cases s <;> decide

/-- C9: dispose nulls the data reference, and a second dispose also
completes and leaves it null: dispose is idempotent. -/
theorem C9_dispose_idempotent (res : BufferResource) :
    (dispose res).data = none ∧ dispose (dispose res) = dispose res ∧
      (dispose (dispose res)).data = none :=
  ⟨rfl, rfl, rfl⟩

/-- C10: a format equal to the RGBA or RGB identifier short-circuits the
classification: upload performs no extension lookup and no parameter
query, and the compressed-format cache field is exactly as before the
call. -/
theorem C10_shortcircuit (res : BufferResource) (gl : GLContext)
    (btx : BaseTexture) (gtx : GLTexture) (log : GLLog)
    (h : btx.format = gl.RGBA ∨ btx.format = gl.RGB) :
    (upload res gl btx gtx log).log.extensionLookups = log.extensionLookups ∧
    (upload res gl btx gtx log).log.parameterQueries = log.parameterQueries ∧
    (upload res gl btx gtx log).res.compressedTextureFormats =
      res.compressedTextureFormats := by
  have hs := classifyCompressed_shortcircuit res gl btx.format log h
  obtain ⟨h1, h2⟩ := upload_counters res gl btx gtx log
  refine ⟨?_, ?_, ?_⟩
  · rw [h1, hs]
  · rw [h2, hs]
  · rw [upload_res_eq, hs]

/-- Witness for C10 at a concrete RGBA upload. -/
theorem C10_shortcircuit_witness :
    (sampleBaseTexture.format = sampleGL.RGBA ∨
      sampleBaseTexture.format = sampleGL.RGB) ∧
    ((upload sampleRes sampleGL sampleBaseTexture sampleGLTexture
        emptyLog).log.extensionLookups = emptyLog.extensionLookups ∧
      (upload sampleRes sampleGL sampleBaseTexture sampleGLTexture
          emptyLog).log.parameterQueries = emptyLog.parameterQueries ∧
      (upload sampleRes sampleGL sampleBaseTexture sampleGLTexture
          emptyLog).res.compressedTextureFormats
        = sampleRes.compressedTextureFormats) :=
  ⟨Or.inl rfl, C10_shortcircuit sampleRes sampleGL sampleBaseTexture sampleGLTexture
    emptyLog (Or.inl rfl)⟩

end Pixi
